import Mathlib

/-!
Verification of the scan-aggregation core of an external security-posture
scanner (Python).  The definitions below are a shallow embedding of
`app/scanners/scoring.py`, `app/scanners/tls_security.py`,
`app/scanners/internet_exposure.py`, `app/scanners/base.py` and
`app/scanners/tasks.py`.

Modelling conventions:
* Python dictionaries read only through `.get(key, default)` are embedded as
  structures whose field holds the post-default value; where Python
  truthiness of a possibly-absent sub-dictionary is observable
  (`certificate`, `spf`, `dkim`, `dmarc`) the field is an `Option`.
* Python numbers are embedded exactly: ints as `Int`; the only non-integer
  values the scoring engine ever computes (`weight * 0.8`, `weight * 0.2`,
  `low_count * 0.5`, `security_score / 100` and the running total built from
  them) are rationals with denominator dividing 10, represented exactly as
  integers scaled by 10 (names carrying the suffix `10` hold tenths of a
  point).
* `int(x)` (Python truncation toward zero) on such a value `a / d` is
  `pyIntDiv a d`.
* The scoring engine's input `scan_results` dict is an association list
  `CategoryMap`; `dict.get(k, {})` is `dict_get`.
* Python's stable `sorted(l, key=...)` is embedded as `List.insertionSort`
  with the non-strict lexicographic key relation (insertion sort is stable,
  hence extensionally equal to any stable sort by the same key).
-/

/-- Python `int(x)` applied to the exact rational value `a / d` (`d > 0`):
truncation toward zero. -/
def pyIntDiv (a : ℤ) (d : ℕ) : ℤ :=
  if 0 ≤ a then ((a.toNat / d : ℕ) : ℤ) else -((a.natAbs / d : ℕ) : ℤ)

/-- Python `str(x)` on an optional string (`None` prints as `"None"`). -/
def pyOptStr (o : Option String) : String :=
  match o with
  | some s => s
  | none => "None"

/-- One element of the `open_ports` payload list as read by the scorer
(`port_info.get("port")`, `port_info.get("service", "unknown")`). -/
structure PortInfo where
  port : Option ℤ := none
  service : Option String := none
deriving DecidableEq, Repr

/-- One element of a `vulnerabilities` payload list; every field is read
with a `.get` default by the scorers. -/
structure Vuln where
  vtype : Option String := none
  severity : Option String := none
  description : Option String := none
  cve_id : Option String := none
  version : Option String := none
deriving DecidableEq, Repr

/-- The `certificate` payload sub-dictionary
(`certificate.get("days_until_expiry", 365)`). -/
structure TLSCert where
  days_until_expiry : Option ℤ := none
deriving DecidableEq, Repr

/-- The `spf` payload sub-dictionary; `found` is the truthiness of
`spf.get("exists")`. -/
structure SpfRecord where
  found : Bool := false
deriving DecidableEq, Repr

/-- The `dkim` payload sub-dictionary
(`dkim.get("selectors_found")`, truthiness of the list). -/
structure DkimRecord where
  selectors_found : List String := []
deriving DecidableEq, Repr

/-- The `dmarc` payload sub-dictionary; `found` is the truthiness of
`dmarc.get("exists")`. -/
structure DmarcRecord where
  found : Bool := false
deriving DecidableEq, Repr

/-- The `risk_summary` payload sub-dictionary
(`risk_summary.get("critical", 0)` etc.). -/
structure RiskSummary where
  critical : ℤ := 0
  high : ℤ := 0
  medium : ℤ := 0
  low : ℤ := 0
deriving DecidableEq, Repr

/-- One element of the `admin_interfaces` payload list. -/
structure AdminInterface where
  authentication_required : Bool := false
  mfa_detected : Bool := false
  url : Option String := none
deriving DecidableEq, Repr

/-- One element of the `exposed_backups` / `config_files` payload lists. -/
structure BackupFile where
  url : Option String := none
deriving DecidableEq, Repr

/-- A category result dictionary as consumed by `ScoringEngine`: the union of
every key any category scorer reads, each with its `.get` default. -/
structure CategoryResult where
  status : Option String := none
  note : Option String := none
  open_ports : List PortInfo := []
  tls_versions : List String := []
  certificate : Option TLSCert := none
  vulnerabilities : List Vuln := []
  security_score : ℤ := 0
  missing_headers : List String := []
  spf : Option SpfRecord := none
  dkim : Option DkimRecord := none
  dmarc : Option DmarcRecord := none
  risk_summary : RiskSummary := {}
  admin_interfaces : List AdminInterface := []
  exposed_backups : List BackupFile := []
  config_files : List BackupFile := []
  waf_detected : Bool := false
  ddos_protection : Bool := false
  rate_limiting : Bool := false
  security_tools : List String := []
deriving DecidableEq, Repr

/-- The scoring engine's input `scan_results` dictionary. -/
abbrev CategoryMap := List (String × CategoryResult)

/-- Python `scan_results.get(category, {})`. -/
def dict_get (m : CategoryMap) (category : String) : CategoryResult :=
  (m.lookup category).getD {}

/-- A problem record as built by the scorers
(`{category, issue, severity, description, impact}`). -/
structure Problem where
  category : String
  issue : String
  severity : String
  description : String
  impact : String
deriving DecidableEq, Repr

/-- A recommendation record as built by the scorers. -/
structure Recommendation where
  problem_id : String
  recommendation : String
  effort_estimate : String
  steps : List String
deriving DecidableEq, Repr

/-- Model of `ScoringEngine.category_weights` (`scoring.py` lines 17-26). -/
def category_weights : List (String × ℤ) :=
  [("internet_exposure", 20), ("tls_security", 15), ("web_security", 15),
   ("email_security", 10), ("vulnerabilities", 25), ("iam_assessment", 8),
   ("backup_dr", 4), ("logging_monitoring", 3)]

/-- Model of `ScoringEngine.max_category_deduction` (`scoring.py` lines 37-46). -/
def max_category_deduction (category : String) : ℤ :=
  (([("internet_exposure", 20), ("tls_security", 15), ("web_security", 15),
     ("email_security", 10), ("vulnerabilities", 25), ("iam_assessment", 8),
     ("backup_dr", 4), ("logging_monitoring", 3)] :
       List (String × ℤ)).lookup category).getD 0

/-- Model of `any(p.get("port") == 443 for p in open_ports)` (`scoring.py` line 157). -/
def has_https_port (open_ports : List PortInfo) : Bool :=
  open_ports.any (fun p => p.port == some 443)

/-- Body of the per-port loop of `_score_internet_exposure`
(`scoring.py` lines 141-165): deduction and problems for one port record. -/
def port_deduction_problems (open_ports : List PortInfo) (pi : PortInfo) :
    ℤ × List Problem :=
  let service := pi.service.getD "unknown"
  match pi.port with
  | some port =>
    if port ∈ ([21, 23, 135, 139, 445, 1433, 3389] : List ℤ) then
      (4, [{ category := "internet_exposure",
             issue := s!"High-risk port {port} ({service}) is open",
             severity := "high",
             description := s!"Port {port} running {service} is accessible from the internet",
             impact := "Potential unauthorized access and exploitation" }])
    else if (port = 80 ∨ port = 8080) ∧ ¬ has_https_port open_ports then
      (2, [{ category := "internet_exposure",
             issue := s!"HTTP service on port {port} without HTTPS",
             severity := "medium",
             description := "Unencrypted web service detected",
             impact := "Data transmitted in plain text" }])
    else (0, [])
  | none => (0, [])

/-- Model of `ScoringEngine._score_internet_exposure` (`scoring.py` lines 132-182). -/
def score_internet_exposure (result : CategoryResult) (max_weight : ℤ) :
    ℤ × List Problem × List Recommendation :=
  let open_ports := result.open_ports
  let steps := open_ports.map (port_deduction_problems open_ports)
  let deductions := (steps.map Prod.fst).sum
  let problems := (steps.map Prod.snd).flatten
  let recommendations :=
    if open_ports.any (fun p => p.port == some 21 || p.port == some 23) then
      [{ problem_id := "insecure_protocols",
         recommendation := "Disable insecure protocols (FTP, Telnet) and use secure alternatives",
         effort_estimate := "Medium",
         steps := ["Identify services using insecure protocols",
                   "Migrate to secure alternatives (SFTP, SSH)",
                   "Update firewall rules to block insecure ports",
                   "Verify secure configuration"] }]
    else []
  (max 0 (max_weight - deductions), problems, recommendations)

/-- Per-vulnerability deduction of `_score_tls_security`
(`scoring.py` lines 238-243). -/
def tls_vuln_deduction (severity : String) : ℤ :=
  if severity = "critical" then 5
  else if severity = "high" then 3
  else if severity = "medium" then 1
  else 0

/-- Problem built for one TLS vulnerability (`scoring.py` lines 230-236). -/
def tls_vuln_problem (v : Vuln) : Problem :=
  { category := "tls_security",
    issue := v.vtype.getD "TLS vulnerability",
    severity := v.severity.getD "low",
    description := v.description.getD "TLS security issue detected",
    impact := "Encryption weakness" }

/-- Model of `ScoringEngine._score_tls_security` (`scoring.py` lines 184-260). -/
def score_tls_security (result : CategoryResult) (max_weight : ℤ) :
    ℤ × List Problem × List Recommendation :=
  let tls_versions := result.tls_versions
  let version_part : ℤ × List Problem :=
    if "TLSv1.0" ∈ tls_versions ∨ "TLSv1.1" ∈ tls_versions then
      (6, [{ category := "tls_security",
             issue := "Outdated TLS versions supported",
             severity := "high",
             description := "TLS 1.0/1.1 are deprecated and vulnerable",
             impact := "Potential for man-in-the-middle attacks" }])
    else (0, [])
  let cert_part : ℤ × List Problem :=
    match result.certificate with
    | some cert =>
      let days := cert.days_until_expiry.getD 365
      if days < 0 then
        (8, [{ category := "tls_security",
               issue := "SSL certificate expired",
               severity := "critical",
               description := "SSL certificate has expired",
               impact := "Service unavailable, security warnings" }])
      else if days < 30 then
        (3, [{ category := "tls_security",
               issue := "SSL certificate expiring soon",
               severity := "medium",
               description := s!"Certificate expires in {days} days",
               impact := "Potential service disruption" }])
      else (0, [])
    | none => (0, [])
  let vuln_problems := result.vulnerabilities.map tls_vuln_problem
  let vuln_ded :=
    (result.vulnerabilities.map (fun v => tls_vuln_deduction (v.severity.getD "low"))).sum
  let problems := version_part.2 ++ cert_part.2 ++ vuln_problems
  let deductions := version_part.1 + cert_part.1 + vuln_ded
  let recommendations :=
    if problems.isEmpty then []
    else
      [{ problem_id := "tls_security_issues",
         recommendation := "Update TLS configuration and certificates",
         effort_estimate := "Low",
         steps := ["Disable TLS 1.0 and 1.1",
                   "Enable only TLS 1.2 and 1.3",
                   "Renew SSL certificates before expiry",
                   "Test configuration with SSL testing tools"] }]
  (max 0 (max_weight - deductions), problems, recommendations)

/-- Model of `ScoringEngine._score_web_security` (`scoring.py` lines 262-309).
Note: the returned base score is NOT clamped to `[0, max_weight]`. -/
def score_web_security (result : CategoryResult) (max_weight : ℤ) :
    ℤ × List Problem × List Recommendation :=
  let security_score := result.security_score
  let base_score := pyIntDiv (max_weight * security_score) 100
  let header_problems := result.missing_headers.filterMap (fun header =>
    if header = "HSTS" ∨ header = "CSP" then
      some { category := "web_security",
             issue := s!"Missing {header} header",
             severity := "medium",
             description := s!"{header} security header not implemented",
             impact := "Reduced web application security" }
    else none)
  let vuln_problems := result.vulnerabilities.map (fun v =>
    { category := "web_security",
      issue := v.vtype.getD "Web security issue",
      severity := v.severity.getD "low",
      description := v.description.getD "Web security vulnerability",
      impact := "Web application security weakness" })
  let recommendations :=
    if result.missing_headers ≠ [] ∨ result.vulnerabilities ≠ [] then
      [{ problem_id := "web_security_headers",
         recommendation := "Implement comprehensive security headers",
         effort_estimate := "Low",
         steps := ["Configure Content Security Policy (CSP)",
                   "Enable HSTS with appropriate max-age",
                   "Set X-Frame-Options to DENY or SAMEORIGIN",
                   "Add X-Content-Type-Options: nosniff"] }]
    else []
  (base_score, header_problems ++ vuln_problems, recommendations)

/-- Per-vulnerability deduction of `_score_email_security`
(`scoring.py` lines 366-369). -/
def email_vuln_deduction (severity : String) : ℤ :=
  if severity = "high" then 2
  else if severity = "medium" then 1
  else 0

/-- Model of `ScoringEngine._score_email_security` (`scoring.py` lines 311-385). -/
def score_email_security (result : CategoryResult) (max_weight : ℤ) :
    ℤ × List Problem × List Recommendation :=
  let spf_part : ℤ × List Problem :=
    if result.spf = none ∨ (result.spf.map SpfRecord.found).getD false = false then
      (3, [{ category := "email_security",
             issue := "SPF record not configured",
             severity := "medium",
             description := "No SPF record found for domain",
             impact := "Email spoofing vulnerability" }])
    else (0, [])
  let dkim_part : ℤ × List Problem :=
    if result.dkim = none ∨ (result.dkim.map DkimRecord.selectors_found).getD [] = [] then
      (3, [{ category := "email_security",
             issue := "DKIM not configured",
             severity := "medium",
             description := "No DKIM selectors found",
             impact := "Email authenticity cannot be verified" }])
    else (0, [])
  let dmarc_part : ℤ × List Problem :=
    if result.dmarc = none ∨ (result.dmarc.map DmarcRecord.found).getD false = false then
      (4, [{ category := "email_security",
             issue := "DMARC policy not configured",
             severity := "medium",
             description := "No DMARC record found",
             impact := "Email domain abuse vulnerability" }])
    else (0, [])
  let vuln_problems := result.vulnerabilities.map (fun v =>
    { category := "email_security",
      issue := v.vtype.getD "Email security issue",
      severity := v.severity.getD "low",
      description := v.description.getD "Email authentication issue",
      impact := "Email security weakness" })
  let vuln_ded :=
    (result.vulnerabilities.map (fun v => email_vuln_deduction (v.severity.getD "low"))).sum
  let problems := spf_part.2 ++ dkim_part.2 ++ dmarc_part.2 ++ vuln_problems
  let deductions := spf_part.1 + dkim_part.1 + dmarc_part.1 + vuln_ded
  let recommendations :=
    if problems.isEmpty then []
    else
      [{ problem_id := "email_authentication",
         recommendation := "Implement comprehensive email authentication",
         effort_estimate := "Medium",
         steps := ["Configure SPF record with appropriate policy",
                   "Set up DKIM signing for outbound emails",
                   "Implement DMARC policy starting with p=none",
                   "Monitor DMARC reports and gradually strengthen policy"] }]
  (max 0 (max_weight - deductions), problems, recommendations)

/-- Model of `ScoringEngine._score_vulnerabilities` (`scoring.py` lines 387-433). -/
def score_vulnerabilities (result : CategoryResult) (max_weight : ℤ) :
    ℤ × List Problem × List Recommendation :=
  let rs := result.risk_summary
  let deductions10 : ℤ :=
    rs.critical * 80 + rs.high * 40 + rs.medium * 20 + rs.low * 5
  let problems := result.vulnerabilities.map (fun v =>
    { category := "vulnerabilities",
      issue := "CVE " ++ v.cve_id.getD "Unknown" ++ " detected",
      severity := v.severity.getD "medium",
      description := v.description.getD "Known vulnerability detected",
      impact := "Potential for exploitation and system compromise" })
  let recommendations :=
    if rs.critical > 0 ∨ rs.high > 0 then
      [{ problem_id := "critical_vulnerabilities",
         recommendation := "Immediately patch critical and high severity vulnerabilities",
         effort_estimate := "High",
         steps := ["Prioritize critical vulnerabilities for immediate patching",
                   "Test patches in staging environment",
                   "Apply patches to production systems",
                   "Verify vulnerability remediation with rescanning"] }]
    else []
  (max 0 (max_weight - pyIntDiv deductions10 10), problems, recommendations)

/-- Body of the per-interface loop of `_score_iam_assessment`
(`scoring.py` lines 445-464). -/
def iam_interface_part (i : AdminInterface) : ℤ × List Problem :=
  let url := pyOptStr i.url
  let auth_part : ℤ × List Problem :=
    if ¬ i.authentication_required then
      (6, [{ category := "iam_assessment",
             issue := "Exposed admin interface",
             severity := "critical",
             description := s!"Admin interface accessible without authentication: {url}",
             impact := "Unauthorized administrative access" }])
    else (0, [])
  let mfa_part : ℤ × List Problem :=
    if ¬ i.mfa_detected then
      (2, [{ category := "iam_assessment",
             issue := "Missing multi-factor authentication",
             severity := "medium",
             description := "Admin interface lacks MFA protection",
             impact := "Increased risk of credential compromise" }])
    else (0, [])
  (auth_part.1 + mfa_part.1, auth_part.2 ++ mfa_part.2)

/-- Per-vulnerability deduction of `_score_iam_assessment`
(`scoring.py` lines 477-482). -/
def iam_vuln_deduction (severity : String) : ℤ :=
  if severity = "critical" then 4
  else if severity = "high" then 2
  else if severity = "medium" then 1
  else 0

/-- Model of `ScoringEngine._score_iam_assessment` (`scoring.py` lines 435-498). -/
def score_iam_assessment (result : CategoryResult) (max_weight : ℤ) :
    ℤ × List Problem × List Recommendation :=
  let iface_steps := result.admin_interfaces.map iam_interface_part
  let vuln_problems := result.vulnerabilities.map (fun v =>
    { category := "iam_assessment",
      issue := v.vtype.getD "IAM security issue",
      severity := v.severity.getD "low",
      description := v.description.getD "Access control vulnerability",
      impact := "Unauthorized access risk" })
  let vuln_ded :=
    (result.vulnerabilities.map (fun v => iam_vuln_deduction (v.severity.getD "low"))).sum
  let problems := (iface_steps.map Prod.snd).flatten ++ vuln_problems
  let deductions := (iface_steps.map Prod.fst).sum + vuln_ded
  let recommendations :=
    if problems.isEmpty then []
    else
      [{ problem_id := "iam_security",
         recommendation := "Strengthen access controls and authentication",
         effort_estimate := "Medium",
         steps := ["Implement MFA for all admin interfaces",
                   "Restrict admin access by IP whitelist",
                   "Regular access reviews and cleanup",
                   "Implement principle of least privilege"] }]
  (max 0 (max_weight - deductions), problems, recommendations)

/-- Per-vulnerability deduction of `_score_backup_dr`
(`scoring.py` lines 543-546). -/
def backup_vuln_deduction (severity : String) : ℤ :=
  if severity = "critical" then 2
  else if severity = "high" then 1
  else 0

/-- Model of `ScoringEngine._score_backup_dr` (`scoring.py` lines 500-562). -/
def score_backup_dr (result : CategoryResult) (max_weight : ℤ) :
    ℤ × List Problem × List Recommendation :=
  let backup_problems := result.exposed_backups.map (fun b =>
    let url := pyOptStr b.url
    { category := "backup_dr",
      issue := "Exposed backup file",
      severity := "critical",
      description := s!"Backup file publicly accessible: {url}",
      impact := "Data exposure and potential system compromise" })
  let config_problems := result.config_files.map (fun c =>
    let url := pyOptStr c.url
    { category := "backup_dr",
      issue := "Exposed configuration file",
      severity := "critical",
      description := s!"Configuration file publicly accessible: {url}",
      impact := "Sensitive configuration data exposure" })
  let vuln_problems := result.vulnerabilities.map (fun v =>
    { category := "backup_dr",
      issue := v.vtype.getD "Backup security issue",
      severity := v.severity.getD "low",
      description := v.description.getD "Backup/DR security issue",
      impact := "Data protection weakness" })
  let vuln_ded :=
    (result.vulnerabilities.map (fun v => backup_vuln_deduction (v.severity.getD "low"))).sum
  let problems := backup_problems ++ config_problems ++ vuln_problems
  let deductions :=
    2 * (result.exposed_backups.length : ℤ) + 2 * (result.config_files.length : ℤ) + vuln_ded
  let recommendations :=
    if problems.isEmpty then []
    else
      [{ problem_id := "backup_security",
         recommendation := "Secure backup files and configuration",
         effort_estimate := "Low",
         steps := ["Remove backup files from public directories",
                   "Implement proper backup storage security",
                   "Use encrypted backup solutions",
                   "Regular backup security audits"] }]
  (max 0 (max_weight - deductions), problems, recommendations)

/-- Model of `ScoringEngine._score_security_monitoring` (`scoring.py` lines 564-620). -/
def score_security_monitoring (result : CategoryResult) (max_weight : ℤ) :
    ℤ × List Problem × List Recommendation :=
  let waf_part : ℤ × List Problem :=
    if ¬ result.waf_detected then
      (1, [{ category := "logging_monitoring",
             issue := "No WAF detected",
             severity := "low",
             description := "Web Application Firewall not detected",
             impact := "Reduced protection against web attacks" }])
    else (0, [])
  let ddos_part : ℤ × List Problem :=
    if ¬ result.ddos_protection then
      (1, [{ category := "logging_monitoring",
             issue := "No DDoS protection detected",
             severity := "low",
             description := "DDoS protection mechanisms not detected",
             impact := "Vulnerability to denial of service attacks" }])
    else (0, [])
  let rate_part : ℤ × List Problem :=
    if ¬ result.rate_limiting then
      (1, [{ category := "logging_monitoring",
             issue := "No rate limiting detected",
             severity := "low",
             description := "Rate limiting not implemented",
             impact := "Vulnerability to abuse and DoS attacks" }])
    else (0, [])
  let score := max_weight - waf_part.1 - ddos_part.1 - rate_part.1
  let problems := waf_part.2 ++ ddos_part.2 ++ rate_part.2
  let recommendations :=
    if result.security_tools = [] then
      [{ problem_id := "security_monitoring",
         recommendation := "Implement comprehensive security monitoring",
         effort_estimate := "High",
         steps := ["Deploy Web Application Firewall (WAF)",
                   "Implement DDoS protection",
                   "Configure rate limiting",
                   "Set up security event monitoring and alerting"] }]
    else []
  (max 0 score, problems, recommendations)

/-- Model of `ScoringEngine._score_category` (`scoring.py` lines 101-130). -/
def score_category (category : String) (category_result : CategoryResult)
    (max_weight : ℤ) : ℤ × List Problem × List Recommendation :=
  if category = "internet_exposure" then score_internet_exposure category_result max_weight
  else if category = "tls_security" then score_tls_security category_result max_weight
  else if category = "web_security" then score_web_security category_result max_weight
  else if category = "email_security" then score_email_security category_result max_weight
  else if category = "vulnerabilities" then score_vulnerabilities category_result max_weight
  else if category = "iam_assessment" then score_iam_assessment category_result max_weight
  else if category = "backup_dr" then score_backup_dr category_result max_weight
  else if category = "logging_monitoring" then score_security_monitoring category_result max_weight
  else (max_weight, [], [])

/-- Body of the per-category loop of `ScoringEngine.calculate_score`
(`scoring.py` lines 67-83): for one `(category, weight)` pair it yields
`(categoryScore, deduction from the running total, problems,
recommendations)`, the two numbers in exact tenths of a point.
A completed entry is scored by `score_category` and deducts
`min(weight - score, max_category_deduction[category])`; any other entry
(missing, or `status ≠ "completed"`) gets a categoryScore of exactly
`weight * 0.8` (= `8 * weight` tenths) and deducts exactly `weight * 0.2`
(= `2 * weight` tenths). -/
def scoreOne (scan_results : CategoryMap) (cw : String × ℤ) :
    ℤ × ℤ × List Problem × List Recommendation :=
  let category := cw.1
  let weight := cw.2
  let category_result := dict_get scan_results category
  if category_result.status = some "completed" then
    let (score, problems, recommendations) := score_category category category_result weight
    let deduction := min (weight - score) (max_category_deduction category)
    (10 * score, 10 * deduction, problems, recommendations)
  else
    (8 * weight, 2 * weight, [], [])

/-- The running total of `calculate_score` just before clamping
(`scoring.py` lines 61-83), in exact tenths of a point: 100 points minus
the per-category deductions. -/
def total_score10 (scan_results : CategoryMap) : ℤ :=
  1000 - ((category_weights.map (fun cw => (scoreOne scan_results cw).2.1)).sum)

/-- The internal `category_scores` mapping of `calculate_score`
(`scoring.py` lines 64, 72, 82), values in exact tenths of a point. -/
def category_scores10 (scan_results : CategoryMap) : List (String × ℤ) :=
  category_weights.map (fun cw => (cw.1, (scoreOne scan_results cw).1))

/-- Model of `severity_order.get(severity, 3)` of `_prioritize_problems`
(`scoring.py` lines 624-627); the `.get("severity", "low")` default makes an
absent severity rank 3, and any unknown severity string also ranks 3. -/
def severity_rank (severity : String) : ℕ :=
  if severity = "critical" then 0
  else if severity = "high" then 1
  else if severity = "medium" then 2
  else if severity = "low" then 3
  else 3

/-- The non-strict sort-key order of `_prioritize_problems`: lexicographic on
`(severity_order[severity], category)`. -/
def problemLE (a b : Problem) : Prop :=
  severity_rank a.severity < severity_rank b.severity ∨
    (severity_rank a.severity = severity_rank b.severity ∧ a.category ≤ b.category)

instance : DecidableRel problemLE := fun a b =>
  inferInstanceAs (Decidable (severity_rank a.severity < severity_rank b.severity ∨
    (severity_rank a.severity = severity_rank b.severity ∧ a.category ≤ b.category)))

/-- Model of `ScoringEngine._prioritize_problems` (`scoring.py` lines 622-629):
Python's stable `sorted` by the key `(severity_order, category)`, embedded as
the stable insertion sort over `problemLE`. -/
def prioritize_problems (problems : List Problem) : List Problem :=
  problems.insertionSort problemLE

/-- Recursion of `_consolidate_recommendations` (`scoring.py` lines 631-642)
over the remaining list, carrying the `seen_recommendations` set. -/
def consolidate_aux (seen : List String) : List Recommendation → List Recommendation
  | [] => []
  | r :: rest =>
    if r.recommendation ∈ seen then consolidate_aux seen rest
    else r :: consolidate_aux (r.recommendation :: seen) rest

/-- Model of `ScoringEngine._consolidate_recommendations` (`scoring.py` lines 631-642). -/
def consolidate_recommendations (recommendations : List Recommendation) :
    List Recommendation :=
  consolidate_aux [] recommendations

/-- The summary dictionary built by `_generate_summary`
(`scoring.py` lines 657-666).  `categories_failed` is
`total - completed`, an arbitrary Python int. -/
structure ScoreSummary where
  categories_scanned : ℕ
  categories_completed : ℕ
  categories_failed : ℤ
  total_issues_found : ℕ
  critical_issues : ℕ
  high_issues : ℕ
  medium_issues : ℕ
  low_issues : ℕ
deriving DecidableEq, Repr

/-- Model of `ScoringEngine._generate_summary` (`scoring.py` lines 644-666). -/
def generate_summary (scan_results : CategoryMap) (problems : List Problem) :
    ScoreSummary :=
  let total_categories := category_weights.length
  let completed_categories :=
    (scan_results.map Prod.snd).countP (fun r => r.status == some "completed")
  { categories_scanned := total_categories
    categories_completed := completed_categories
    categories_failed := (total_categories : ℤ) - (completed_categories : ℤ)
    total_issues_found := problems.length
    critical_issues := problems.countP (fun p => p.severity == "critical")
    high_issues := problems.countP (fun p => p.severity == "high")
    medium_issues := problems.countP (fun p => p.severity == "medium")
    low_issues := problems.countP (fun p => p.severity == "low") }

/-- Model of `ScoringEngine.calculate_score` (`scoring.py` lines 48-99): returns
`(final_score, sorted_problems, unique_recommendations, summary)`. -/
def calculate_score (scan_results : CategoryMap) :
    ℤ × List Problem × List Recommendation × ScoreSummary :=
  let steps := category_weights.map (scoreOne scan_results)
  let all_problems := (steps.map (fun s => s.2.2.1)).flatten
  let all_recommendations := (steps.map (fun s => s.2.2.2)).flatten
  let final_score := max 0 (min 100 (pyIntDiv (total_score10 scan_results) 10))
  let sorted_problems := prioritize_problems all_problems
  let unique_recommendations := consolidate_recommendations all_recommendations
  let summary := generate_summary scan_results sorted_problems
  (final_score, sorted_problems, unique_recommendations, summary)

/-- The candidate protocol versions tried by
`TLSSecurityScanner._test_tls_versions` (`tls_security.py` lines 176-181). -/
def tls_version_candidates : List String :=
  ["TLSv1.0", "TLSv1.1", "TLSv1.2", "TLSv1.3"]

/-- Model of `vulnerable_versions` of `_test_tls_versions` (`tls_security.py` line 211). -/
def vulnerable_versions : List String :=
  ["TLSv1.0", "TLSv1.1", "SSLv2", "SSLv3"]

/-- The `supported_versions` list computed by `_test_tls_versions`
(`tls_security.py` lines 183-207): the candidates whose handshake succeeds
(`handshake v = true`); a failed handshake is skipped, never an error. -/
def supported_tls_versions (handshake : String → Bool) : List String :=
  tls_version_candidates.filter handshake

/-- The `weak_tls_version` vulnerability records appended by
`_test_tls_versions` (`tls_security.py` lines 210-219). -/
def weak_version_vulns (supported_versions : List String) : List Vuln :=
  vulnerable_versions.filterMap (fun v =>
    if v ∈ supported_versions then
      some { vtype := some "weak_tls_version",
             version := some v,
             severity := some (if v = "SSLv2" ∨ v = "SSLv3" then "high" else "medium"),
             description := some (v ++ " is deprecated and vulnerable to attacks") }
    else none)

/-- A probe result as assembled by `BaseScanner.create_result`
(`base.py` lines 88-111); the payload dict merged into the result is
abstracted as an optional value of the probe's payload type. -/
structure ProbeResult (α : Type) where
  status : String
  payload : Option α := none
  note : Option String := none
deriving DecidableEq, Repr

/-- Model of `BaseScanner.create_result` (`base.py` lines 88-111). -/
def create_result {α : Type} (status : String) (payload : Option α)
    (note : Option String) : ProbeResult α :=
  { status := status, payload := payload, note := note }

/-- Model of `settings.SCAN_TIMEOUT` (`config.py` line 58), as read by
`BaseScanner.__init__`. -/
def scan_timeout : ℤ := 30

/-- Model of `BaseScanner.handle_timeout` (`base.py` lines 113-126). -/
def handle_timeout (α : Type) (operation : String) : ProbeResult α :=
  create_result "failed" none
    (some s!"Data not obtained; {operation} timed out after {scan_timeout} seconds")

/-- Model of `BaseScanner.handle_network_error` (`base.py` lines 128-143); an empty
detail string is falsy in Python and leaves the note without the detail. -/
def handle_network_error (α : Type) (operation : String) (error : String) :
    ProbeResult α :=
  let note := "Data not obtained; " ++ operation ++ " failed"
  let note := if error ≠ "" then note ++ ": " ++ error else note
  create_result "failed" none (some note)

/-- Model of `BaseScanner.handle_service_not_found` (`base.py` lines 160-173). -/
def handle_service_not_found (α : Type) (service : String) : ProbeResult α :=
  create_result "failed" none
    (some s!"Scanning not possible; {service} not detected or available")

/-- The exceptions a scan body can raise into the `try` of `scan()`
(`base.py` lines 11-28 plus Python's catch-all `Exception`). -/
inductive ScanException where
  | networkTimeout (msg : String)
  | scanningNotPossible (msg : String)
  | unexpected (msg : String)
deriving DecidableEq, Repr

/-- Outcome of the body of `TLSSecurityScanner.scan` inside the `try`
(`tls_security.py` lines 48-63): either no TLS service was found, or a
results payload was assembled, or an exception escaped. -/
inductive TLSBody (α : Type) where
  | noServices
  | results (payload : α)
  | raised (e : ScanException)
deriving DecidableEq, Repr

/-- Model of `TLSSecurityScanner.scan` (`tls_security.py` lines 39-70), as a function
of the body's outcome: every raised exception is caught and mapped to a
standard failed result; the function is total, so `scan()` never raises. -/
def tls_scan {α : Type} (body : TLSBody α) : ProbeResult α :=
  match body with
  | .noServices => handle_service_not_found α "TLS/SSL services"
  | .results payload => create_result "completed" (some payload) none
  | .raised (.networkTimeout _) => handle_timeout α "TLS/SSL analysis"
  | .raised (.scanningNotPossible msg) => handle_network_error α "TLS/SSL analysis" msg
  | .raised (.unexpected msg) => handle_network_error α "TLS/SSL analysis" msg

/-- Outcome of the body of `InternetExposureScanner.scan` inside the `try`
(`internet_exposure.py` lines 58-86). -/
inductive ExposureBody (α : Type) where
  | results (payload : α)
  | raised (e : ScanException)
deriving DecidableEq, Repr

/-- Model of `InternetExposureScanner.scan` (`internet_exposure.py` lines 49-93), as a
function of the body's outcome. -/
def internet_exposure_scan {α : Type} (body : ExposureBody α) : ProbeResult α :=
  match body with
  | .results payload => create_result "completed" (some payload) none
  | .raised (.networkTimeout _) => handle_timeout α "port scanning"
  | .raised (.scanningNotPossible msg) => handle_network_error α "port scanning" msg
  | .raised (.unexpected msg) => handle_network_error α "port scanning" msg

/-- Model of `settings.COMMON_PORTS` (`config.py` line 54). -/
def common_ports : List ℕ :=
  [21, 22, 23, 25, 53, 80, 110, 143, 443, 993, 995, 3389, 8080, 8443]

/-- Model of `InternetExposureScanner._get_scan_ports` (`internet_exposure.py`
lines 95-109): quick → common ports, full → `range(1, 1001)`,
anything else → common ports. -/
def get_scan_ports (scan_type : String) : List ℕ :=
  if scan_type = "quick" then common_ports
  else if scan_type = "full" then List.range' 1 1000
  else common_ports

/-- The `common_services` table of `_guess_service_name`
(`internet_exposure.py` lines 212-234). -/
def common_services : List (ℕ × String) :=
  [(21, "ftp"), (22, "ssh"), (23, "telnet"), (25, "smtp"), (53, "dns"),
   (80, "http"), (110, "pop3"), (143, "imap"), (443, "https"), (993, "imaps"),
   (995, "pop3s"), (465, "smtps"), (587, "submission"), (8080, "http-proxy"),
   (8443, "https-alt"), (3389, "rdp"), (1433, "mssql"), (3306, "mysql"),
   (5432, "postgresql"), (6379, "redis"), (27017, "mongodb")]

/-- Model of `InternetExposureScanner._guess_service_name` (`internet_exposure.py`
lines 202-236). -/
def guess_service_name (port : ℕ) : String :=
  (common_services.lookup port).getD "unknown"

/-- Outcome of one `sock.connect_ex((target, port))` attempt inside
`scan_port` (`internet_exposure.py` lines 169-191): either an error code
(`0` = connected) or an exception raised during the attempt. -/
inductive ConnectOutcome where
  | code (n : ℤ)
  | raised (msg : String)
deriving DecidableEq, Repr

/-- An open-port record as built by the socket-fallback `scan_port`
(`internet_exposure.py` lines 180-186). -/
structure OpenPortRecord where
  port : ℕ
  protocol : String
  service : String
  state : String
  method : String
deriving DecidableEq, Repr

/-- The inner `scan_port` closure of `_perform_socket_scan`
(`internet_exposure.py` lines 169-191): only `connect_ex = 0` yields a
record; every other return code, and any exception, yields `None`. -/
def scan_port (conn : ℕ → ConnectOutcome) (port : ℕ) : Option OpenPortRecord :=
  match conn port with
  | .code result =>
    if result = 0 then
      some { port := port, protocol := "tcp", service := guess_service_name port,
             state := "open", method := "socket_connect" }
    else none
  | .raised _ => none

/-- Model of `InternetExposureScanner._perform_socket_scan` (`internet_exposure.py`
lines 159-198): one `scan_port` call per element of `ports` (via
`executor.map`, which preserves order and arity), keeping non-`None`
results. -/
def perform_socket_scan (conn : ℕ → ConnectOutcome) (ports : List ℕ) :
    List OpenPortRecord :=
  (ports.map (scan_port conn)).filterMap id

/-- Number of connection attempts `_perform_socket_scan` makes against a
given port: `executor.map(scan_port, ports)` calls `scan_port` exactly once
per list element, and `scan_port` opens exactly one connection. -/
def socket_scan_attempts (ports : List ℕ) (port : ℕ) : ℕ :=
  ports.count port

/-- The ordered category list of `run_comprehensive_scan`
(`tasks.py` lines 129-138). -/
def scan_category_names : List String :=
  ["internet_exposure", "tls_security", "web_security", "email_security",
   "vulnerabilities", "iam_assessment", "backup_dr", "logging_monitoring"]

/-- The fallback entry stored when a category's construction or `scan()`
raises (`tasks.py` lines 160-166). -/
def failed_category_entry (msg : String) : CategoryResult :=
  { status := some "failed", note := some ("Scanning not possible: " ++ msg) }

/-- Model of `run_comprehensive_scan` (`tasks.py` lines 114-168): each category's
scanner construction and `scan()` call is modelled by `behave`, which either
returns the category's result dictionary or raises (`Except.error` with the
exception text).  The results dict is built by inserting each category once,
in order. -/
def run_comprehensive_scan (behave : String → Except String CategoryResult) :
    CategoryMap :=
  scan_category_names.map (fun category =>
    match behave category with
    | .ok category_result => (category, category_result)
    | .error e => (category, failed_category_entry e))

/-! ### Helper lemmas -/

theorem pyIntDiv_nonneg {a : ℤ} (d : ℕ) (ha : 0 ≤ a) : 0 ≤ pyIntDiv a d := by
  unfold pyIntDiv
  rw [if_pos ha]
  exact Int.natCast_nonneg _

theorem pyIntDiv_le {a w : ℤ} {d : ℕ} (ha : 0 ≤ a) (hd : 0 < d) (h : a ≤ (d : ℤ) * w) :
    pyIntDiv a d ≤ w := by
  unfold pyIntDiv
  rw [if_pos ha]
  have hw : 0 ≤ w := by nlinarith
  have h0 : (a.toNat : ℤ) ≤ (d : ℤ) * (w.toNat : ℤ) := by
    rw [Int.toNat_of_nonneg ha, Int.toNat_of_nonneg hw]
    exact h
  have h1 : a.toNat ≤ d * w.toNat := by exact_mod_cast h0
  have h2 : a.toNat / d ≤ w.toNat := by
    calc a.toNat / d ≤ d * w.toNat / d := Nat.div_le_div_right h1
    _ = w.toNat := Nat.mul_div_cancel_left _ hd
  omega

theorem clamped_score_bounds {w d : ℤ} (hw : 0 ≤ w) (hd : 0 ≤ d) :
    0 ≤ max 0 (w - d) ∧ max 0 (w - d) ≤ w :=
  ⟨le_max_left _ _, max_le hw (by omega)⟩

/-! ### Claim C1 -/

/-- Claim C1: for every input `CategoryMap` (any dictionary of category
results), the score returned by `calculate_score` is an integer in the
closed interval `[0, 100]`, obtained by clamping the running total to
`[0, 100]` and truncating to an integer (`max(0, min(100, int(total)))`,
`scoring.py` line 86). -/
theorem calculate_score_in_bounds (scan_results : CategoryMap) :
    0 ≤ (calculate_score scan_results).1 ∧ (calculate_score scan_results).1 ≤ 100 ∧
    (calculate_score scan_results).1 =
      max 0 (min 100 (pyIntDiv (total_score10 scan_results) 10)) :=
  ⟨le_max_left _ _, max_le (by norm_num) (min_le_left _ _), rfl⟩

/-! ### Claim C2 -/

/-- Claim C2: a weighted category whose `CategoryMap` entry is present with
`status ≠ "completed"` is assigned a categoryScore of exactly
`weight * 0.8` (`8 * weight` tenths of a point) and deducts exactly
`weight * 0.2` (`2 * weight` tenths) from the running total, contributing no
problems and no recommendations — regardless of the entry's note text or any
other field. -/
theorem failed_category_fixed_contribution (scan_results : CategoryMap)
    (category : String) (weight : ℤ) (entry : CategoryResult)
    (hcw : (category, weight) ∈ category_weights)
    (hlook : scan_results.lookup category = some entry)
    (hstatus : entry.status ≠ some "completed") :
    scoreOne scan_results (category, weight) = (8 * weight, 2 * weight, [], []) := by
  unfold scoreOne
  simp only [dict_get, hlook, Option.getD_some]
  rw [if_neg hstatus]

/-- The entry used to exercise `failed_category_fixed_contribution`. -/
def c2_entry : CategoryResult :=
  { status := some "failed",
    note := some "Scanning not possible; TLS/SSL services not detected or available" }

/-- The map used to exercise `failed_category_fixed_contribution`. -/
def c2_map : CategoryMap := [("tls_security", c2_entry)]

/-- Witness for C2: a failed `tls_security` entry (weight 15) contributes a
categoryScore of 12 points (120 tenths) and a deduction of 3 points
(30 tenths). -/
theorem failed_category_fixed_contribution_witness :
    ("tls_security", (15 : ℤ)) ∈ category_weights ∧
    c2_map.lookup "tls_security" = some c2_entry ∧
    c2_entry.status ≠ some "completed" ∧
    scoreOne c2_map ("tls_security", 15) = (120, 30, [], []) :=
  ⟨by decide, rfl, by decide,
    failed_category_fixed_contribution c2_map "tls_security" 15 c2_entry
      (by decide) rfl (by decide)⟩

/-! ### Claim C5 -/

/-- A `CategoryMap` in which every scheduled category completed and found
nothing wrong: no open ports, only strong TLS versions with a far-future
certificate and no TLS findings, full web security score with no missing
headers, SPF/DKIM/DMARC all present, zero vulnerabilities of every
severity, no admin interfaces, no exposed backup or config files, and all
monitoring controls detected. -/
def clean_scan_results : CategoryMap :=
  [("internet_exposure", { status := some "completed" }),
   ("tls_security", { status := some "completed",
                      tls_versions := ["TLSv1.2", "TLSv1.3"],
                      certificate := some { days_until_expiry := some 365 } }),
   ("web_security", { status := some "completed", security_score := 100 }),
   ("email_security", { status := some "completed",
                        spf := some { found := true },
                        dkim := some { selectors_found := ["default"] },
                        dmarc := some { found := true } }),
   ("vulnerabilities", { status := some "completed" }),
   ("iam_assessment", { status := some "completed" }),
   ("backup_dr", { status := some "completed" }),
   ("logging_monitoring", { status := some "completed",
                            waf_detected := true,
                            ddos_protection := true,
                            rate_limiting := true,
                            security_tools := ["waf"] })]

/-- Claim C5: when all eight scheduled categories completed with zero
findings, `calculate_score` returns a final score of exactly 100 and an
empty problem list. -/
theorem clean_scan_scores_100 :
    (calculate_score clean_scan_results).1 = 100 ∧
    (calculate_score clean_scan_results).2.1 = [] := by decide

/-! ### Claim C10 -/

/-- The `completed_categories` count of `_generate_summary`, which iterates the
dictionary's values, agrees with counting per scheduled category through
`dict_get`, whenever the dictionary's keys are distinct and all scheduled. -/
theorem completed_count_aux (m : CategoryMap) (names : List String)
    (hnd : (m.map Prod.fst).Nodup) (hnames : names.Nodup)
    (hsub : ∀ k ∈ m.map Prod.fst, k ∈ names) :
    (m.map Prod.snd).countP (fun r => r.status == some "completed") =
      names.countP (fun c => (dict_get m c).status == some "completed") := by
  induction m generalizing names with
  | nil =>
    simp [dict_get]
  | cons e m ih =>
    obtain ⟨k, v⟩ := e
    have hnd0 : k ∉ m.map Prod.fst ∧ (m.map Prod.fst).Nodup := by
      constructor
      · exact (List.nodup_cons.mp (by simpa using hnd)).1
      · exact (List.nodup_cons.mp (by simpa using hnd)).2
    have hk : k ∈ names := hsub k (by simp)
    have hperm : names.Perm (k :: names.erase k) := List.perm_cons_erase hk
    rw [hperm.countP_eq]
    simp only [List.map_cons, List.countP_cons]
    have hgk : dict_get ((k, v) :: m) k = v := by
      simp [dict_get, List.lookup]
    have hcongr :
        (names.erase k).countP (fun c => (dict_get ((k, v) :: m) c).status == some "completed") =
          (names.erase k).countP (fun c => (dict_get m c).status == some "completed") := by
      apply List.countP_congr
      intro c hc
      have hne : c ≠ k := (hnames.mem_erase_iff.mp hc).1
      have hbeq : (c == k) = false := beq_eq_false_iff_ne.mpr hne
      simp [dict_get, List.lookup, hbeq]
    rw [hcongr, hgk]
    rw [ih (names.erase k) hnd0.2 (hnames.erase k) ?_]
    intro x hx
    have hxk : x ≠ k := fun h => hnd0.1 (h ▸ hx)
    exact hnames.mem_erase_iff.mpr ⟨hxk, hsub x (by simp [hx])⟩

/-- Claim C10: a weighted category with no entry at all in the input
`CategoryMap` is scored exactly like a failed category — categoryScore
`weight * 0.8` (`8 * weight` tenths), deduction `weight * 0.2`
(`2 * weight` tenths), no problems or recommendations — and, whenever the
map's keys are distinct scheduled categories, it is counted under
`categories_failed` in the summary: `categories_failed` equals the number of
scheduled categories whose entry is missing or not completed, which includes
every missing one (third conjunct). -/
theorem missing_category_scored_as_failed (scan_results : CategoryMap)
    (category : String) (weight : ℤ) (problems : List Problem)
    (hcw : (category, weight) ∈ category_weights)
    (hmiss : scan_results.lookup category = none)
    (hnd : (scan_results.map Prod.fst).Nodup)
    (hsub : ∀ k ∈ scan_results.map Prod.fst, k ∈ scan_category_names) :
    scoreOne scan_results (category, weight) = (8 * weight, 2 * weight, [], []) ∧
    category ∈ scan_category_names ∧
    ((dict_get scan_results category).status == some "completed") = false ∧
    (generate_summary scan_results problems).categories_failed =
      ((scan_category_names.countP
        (fun c => !((dict_get scan_results c).status == some "completed"))) : ℤ) := by
  refine ⟨?_, ?_, ?_, ?_⟩
  · unfold scoreOne
    simp [dict_get, hmiss]
  · simp only [category_weights, List.mem_cons, List.mem_singleton,
      Prod.mk.injEq, List.not_mem_nil, or_false] at hcw
    rcases hcw with h | h | h | h | h | h | h | h <;> obtain ⟨rfl, -⟩ := h <;> decide
  · simp [dict_get, hmiss]
  · unfold generate_summary
    have hcomp := completed_count_aux scan_results scan_category_names hnd
      (by decide) hsub
    have hlen := List.length_eq_countP_add_countP
      (fun c => (dict_get scan_results c).status == some "completed") scan_category_names
    have hlen8 : scan_category_names.length = 8 := by decide
    have hwlen : category_weights.length = 8 := by decide
    have hnot :
        scan_category_names.countP
            (fun c => !((dict_get scan_results c).status == some "completed")) =
          scan_category_names.countP
            (fun c => ¬((dict_get scan_results c).status == some "completed")) := by
      apply List.countP_congr
      intro x _
      simp
    simp only [hwlen, hcomp, hnot]
    omega

/-- The map used to exercise `missing_category_scored_as_failed`: only
`tls_security` has an entry; `backup_dr` (weight 4) is missing. -/
def c10_map : CategoryMap := [("tls_security", { status := some "completed" })]

/-- Witness for C10: the missing `backup_dr` category scores 3.2 points
(32 tenths) with a 0.8-point deduction (8 tenths), and `categories_failed`
equals the count of scheduled categories that are missing or not
completed. -/
theorem missing_category_scored_as_failed_witness :
    c10_map.lookup "backup_dr" = none ∧
    scoreOne c10_map ("backup_dr", 4) = (32, 8, [], []) ∧
    (generate_summary c10_map []).categories_failed =
      ((scan_category_names.countP
        (fun c => !((dict_get c10_map c).status == some "completed"))) : ℤ) :=
  ⟨rfl,
   (missing_category_scored_as_failed c10_map "backup_dr" 4 []
     (by decide) rfl (by decide) (by decide)).1,
   (missing_category_scored_as_failed c10_map "backup_dr" 4 []
     (by decide) rfl (by decide) (by decide)).2.2.2⟩

/-! ### Claim C4 -/

theorem port_deduction_nonneg (l : List PortInfo) (pi : PortInfo) :
    0 ≤ (port_deduction_problems l pi).1 := by
  unfold port_deduction_problems
  rcases pi with ⟨port, service⟩
  cases port with
  | none => norm_num
  | some p =>
    dsimp only
    split_ifs <;> norm_num

theorem tls_vuln_deduction_nonneg (s : String) : 0 ≤ tls_vuln_deduction s := by
  unfold tls_vuln_deduction
  split_ifs <;> norm_num

theorem email_vuln_deduction_nonneg (s : String) : 0 ≤ email_vuln_deduction s := by
  unfold email_vuln_deduction
  split_ifs <;> norm_num

theorem iam_vuln_deduction_nonneg (s : String) : 0 ≤ iam_vuln_deduction s := by
  unfold iam_vuln_deduction
  split_ifs <;> norm_num

theorem backup_vuln_deduction_nonneg (s : String) : 0 ≤ backup_vuln_deduction s := by
  unfold backup_vuln_deduction
  split_ifs <;> norm_num

theorem vuln_map_sum_nonneg (vulns : List Vuln) (f : String → ℤ)
    (hf : ∀ s, 0 ≤ f s) :
    0 ≤ (vulns.map (fun v => f (v.severity.getD "low"))).sum := by
  apply List.sum_nonneg
  intro x hx
  simp only [List.mem_map] at hx
  obtain ⟨v, -, rfl⟩ := hx
  exact hf _

theorem score_internet_exposure_bounds (r : CategoryResult) {w : ℤ} (hw : 0 ≤ w) :
    0 ≤ (score_internet_exposure r w).1 ∧ (score_internet_exposure r w).1 ≤ w := by
  have hd : 0 ≤ ((r.open_ports.map (port_deduction_problems r.open_ports)).map Prod.fst).sum := by
    rw [List.map_map]
    apply List.sum_nonneg
    intro x hx
    simp only [List.mem_map, Function.comp] at hx
    obtain ⟨a, -, rfl⟩ := hx
    exact port_deduction_nonneg _ _
  unfold score_internet_exposure
  exact clamped_score_bounds hw hd

theorem score_tls_security_bounds (r : CategoryResult) {w : ℤ} (hw : 0 ≤ w) :
    0 ≤ (score_tls_security r w).1 ∧ (score_tls_security r w).1 ≤ w := by
  unfold score_tls_security
  apply clamped_score_bounds hw
  refine add_nonneg (add_nonneg ?_ ?_) (vuln_map_sum_nonneg _ _ tls_vuln_deduction_nonneg)
  · split_ifs <;> norm_num
  · rcases r.certificate with _ | cert
    · norm_num
    · dsimp only
      split_ifs <;> norm_num

theorem score_web_security_bounds (r : CategoryResult) {w : ℤ} (hw : 0 ≤ w)
    (hs0 : 0 ≤ r.security_score) (hs100 : r.security_score ≤ 100) :
    0 ≤ (score_web_security r w).1 ∧ (score_web_security r w).1 ≤ w := by
  unfold score_web_security
  constructor
  · exact pyIntDiv_nonneg _ (by positivity)
  · apply pyIntDiv_le (by positivity) (by norm_num)
    push_cast
    nlinarith [mul_nonneg hw (sub_nonneg.mpr hs100)]

theorem score_email_security_bounds (r : CategoryResult) {w : ℤ} (hw : 0 ≤ w) :
    0 ≤ (score_email_security r w).1 ∧ (score_email_security r w).1 ≤ w := by
  unfold score_email_security
  apply clamped_score_bounds hw
  refine add_nonneg (add_nonneg (add_nonneg ?_ ?_) ?_)
    (vuln_map_sum_nonneg _ _ email_vuln_deduction_nonneg) <;>
    split_ifs <;> norm_num

theorem score_vulnerabilities_bounds (r : CategoryResult) {w : ℤ} (hw : 0 ≤ w)
    (hc : 0 ≤ r.risk_summary.critical) (hh : 0 ≤ r.risk_summary.high)
    (hm : 0 ≤ r.risk_summary.medium) (hl : 0 ≤ r.risk_summary.low) :
    0 ≤ (score_vulnerabilities r w).1 ∧ (score_vulnerabilities r w).1 ≤ w := by
  unfold score_vulnerabilities
  apply clamped_score_bounds hw
  apply pyIntDiv_nonneg
  positivity

theorem iam_interface_nonneg (i : AdminInterface) : 0 ≤ (iam_interface_part i).1 := by
  unfold iam_interface_part
  dsimp only
  split_ifs <;> norm_num

theorem score_iam_assessment_bounds (r : CategoryResult) {w : ℤ} (hw : 0 ≤ w) :
    0 ≤ (score_iam_assessment r w).1 ∧ (score_iam_assessment r w).1 ≤ w := by
  unfold score_iam_assessment
  apply clamped_score_bounds hw
  apply add_nonneg ?_ (vuln_map_sum_nonneg _ _ iam_vuln_deduction_nonneg)
  rw [List.map_map]
  apply List.sum_nonneg
  intro x hx
  simp only [List.mem_map, Function.comp] at hx
  obtain ⟨a, -, rfl⟩ := hx
  exact iam_interface_nonneg _

theorem score_backup_dr_bounds (r : CategoryResult) {w : ℤ} (hw : 0 ≤ w) :
    0 ≤ (score_backup_dr r w).1 ∧ (score_backup_dr r w).1 ≤ w := by
  unfold score_backup_dr
  apply clamped_score_bounds hw
  have h := vuln_map_sum_nonneg r.vulnerabilities _ backup_vuln_deduction_nonneg
  positivity

theorem score_security_monitoring_bounds (r : CategoryResult) {w : ℤ} (hw : 0 ≤ w) :
    0 ≤ (score_security_monitoring r w).1 ∧ (score_security_monitoring r w).1 ≤ w := by
  unfold score_security_monitoring
  dsimp only
  constructor
  · exact le_max_left _ _
  · apply max_le hw
    split_ifs <;> omega

/-- The completed `web_security` entry refuting claim C4 as stated: the
scoring engine trusts the payload's `security_score` and scales it by the
weight without clamping. -/
def c4_web_result : CategoryResult :=
  { status := some "completed", security_score := 200 }

/-- Counterexample to claim C4 as stated over every input `CategoryMap`: for
a completed `web_security` entry with payload `security_score = 200`, the
category-specific scorer returns `int(15 * 200 / 100) = 30`, which exceeds
the category's weight 15. -/
theorem completed_score_can_exceed_weight :
    c4_web_result.status = some "completed" ∧
    (score_category "web_security" c4_web_result 15).1 = 30 ∧
    ¬ (score_category "web_security" c4_web_result 15).1 ≤ 15 := by decide

/-- Claim C4 (amended): for every weighted category and every completed
entry whose numeric payload fields lie in the ranges their producing
scanners guarantee (`security_score ∈ [0, 100]` — the web scanner clamps it
to that range — and nonnegative risk-summary counts), the category-specific
scorer's categoryScore satisfies `0 ≤ categoryScore ≤ weight`. -/
theorem completed_category_score_bounds (category : String) (weight : ℤ)
    (result : CategoryResult)
    (hcw : (category, weight) ∈ category_weights)
    (hstatus : result.status = some "completed")
    (hs0 : 0 ≤ result.security_score) (hs100 : result.security_score ≤ 100)
    (hc : 0 ≤ result.risk_summary.critical) (hh : 0 ≤ result.risk_summary.high)
    (hm : 0 ≤ result.risk_summary.medium) (hl : 0 ≤ result.risk_summary.low) :
    0 ≤ (score_category category result weight).1 ∧
      (score_category category result weight).1 ≤ weight := by
  simp only [category_weights, List.mem_cons, Prod.mk.injEq,
    List.not_mem_nil, or_false] at hcw
  rcases hcw with h | h | h | h | h | h | h | h <;> obtain ⟨rfl, rfl⟩ := h
  · simpa [score_category] using score_internet_exposure_bounds result (by norm_num)
  · simpa [score_category] using score_tls_security_bounds result (by norm_num)
  · simpa [score_category] using score_web_security_bounds result (by norm_num) hs0 hs100
  · simpa [score_category] using score_email_security_bounds result (by norm_num)
  · simpa [score_category] using
      score_vulnerabilities_bounds result (by norm_num) hc hh hm hl
  · simpa [score_category] using score_iam_assessment_bounds result (by norm_num)
  · simpa [score_category] using score_backup_dr_bounds result (by norm_num)
  · simpa [score_category] using score_security_monitoring_bounds result (by norm_num)

/-- A well-formed completed `web_security` entry for the amendment's
witness. -/
def c4_ok_result : CategoryResult :=
  { status := some "completed", security_score := 50 }

/-- Witness for the amended C4: a completed `web_security` entry with
`security_score = 50` scores within `[0, 15]`. -/
theorem completed_category_score_bounds_witness :
    ("web_security", (15 : ℤ)) ∈ category_weights ∧
    c4_ok_result.status = some "completed" ∧
    (0 ≤ (score_category "web_security" c4_ok_result 15).1 ∧
      (score_category "web_security" c4_ok_result 15).1 ≤ 15) :=
  ⟨by decide, rfl,
   completed_category_score_bounds "web_security" 15 c4_ok_result
     (by decide) rfl (by decide) (by decide) (by decide) (by decide)
     (by decide) (by decide)⟩

/-! ### Claim C3 -/

/-- Handshake outcomes of the C3 scenario: the server accepts TLSv1.0 and
TLSv1.2 handshakes and rejects the other candidate versions. -/
def c3_handshake : String → Bool := fun v => v == "TLSv1.0" || v == "TLSv1.2"

/-- The completed TLS category result the probe assembles in the C3
scenario: `tls_versions` from `_test_tls_versions`, `vulnerabilities`
holding the `weak_tls_version` findings it appends, no certificate and no
other weaknesses. -/
def c3_result : CategoryResult :=
  { status := some "completed",
    tls_versions := supported_tls_versions c3_handshake,
    vulnerabilities := weak_version_vulns (supported_tls_versions c3_handshake) }

/-- Counterexample to claim C3 as stated: in the scenario the probe does
report versions `["TLSv1.0", "TLSv1.2"]`, but the scorer's category score is
not `weight − 6 = 9`: it deducts 6 for the outdated version list and 1 more
for the medium `weak_tls_version` vulnerability entry the probe also put in
the payload. -/
theorem tls_scenario_score_not_weight_minus_6 :
    supported_tls_versions c3_handshake = ["TLSv1.0", "TLSv1.2"] ∧
    ¬ (score_tls_security c3_result 15).1 = 15 - 6 := by decide

/-- Claim C3 (amended): in the scenario the probe produces exactly one
`weak_tls_version` finding, of severity medium, and the scorer gives the
`tls_security` category `max(0, weight − 7)`: 6 deducted for supporting
TLS 1.0/1.1 plus 1 for the medium finding — for weight 15 that is 8. -/
theorem tls_scenario_weak_version_finding_and_score :
    weak_version_vulns (supported_tls_versions c3_handshake) =
      [{ vtype := some "weak_tls_version",
         severity := some "medium",
         description := some "TLSv1.0 is deprecated and vulnerable to attacks",
         cve_id := none,
         version := some "TLSv1.0" }] ∧
    (score_tls_security c3_result 15).1 = max 0 (15 - 7) := by decide

/-! ### Claim C6 -/

/-- Lookup in the orchestrator's result map: a category that raised maps to
the fallback failed entry. -/
theorem run_scan_lookup_aux (behave : String → Except String CategoryResult)
    (names : List String) (category msg : String)
    (hcat : category ∈ names) (herr : behave category = .error msg) :
    (names.map (fun c =>
      match behave c with
      | .ok category_result => (c, category_result)
      | .error e => (c, failed_category_entry e))).lookup category =
      some (failed_category_entry msg) := by
  induction names with
  | nil => cases hcat
  | cons a t ih =>
    by_cases hca : category = a
    · subst hca
      simp [List.lookup, herr]
    · have hbeq : (category == a) = false := beq_eq_false_iff_ne.mpr hca
      have hmem : category ∈ t := by
        rcases List.mem_cons.mp hcat with h | h
        · exact absurd h hca
        · exact h
      cases hb : behave a <;> simp [List.lookup, hb, hbeq, ih hmem]

/-- Claim C6: for every behaviour of the category scanners — including one
where construction or `scan()` raises an arbitrary exception — the
orchestrator's result map has exactly one entry per scheduled category, in
order (its key list is exactly the 8 distinct scheduled names), and a
raising category yields the fallback failed entry rather than a missing
one. -/
theorem orchestrator_one_entry_per_category
    (behave : String → Except String CategoryResult) :
    (run_comprehensive_scan behave).map Prod.fst = scan_category_names ∧
    scan_category_names.length = 8 ∧
    scan_category_names.Nodup ∧
    (∀ category msg, behave category = .error msg → category ∈ scan_category_names →
      (run_comprehensive_scan behave).lookup category =
        some (failed_category_entry msg)) := by
  refine ⟨?_, by decide, by decide, ?_⟩
  · unfold run_comprehensive_scan
    rw [List.map_map]
    have h : ∀ c ∈ scan_category_names,
        (Prod.fst ∘ fun c =>
          match behave c with
          | .ok category_result => (c, category_result)
          | .error e => (c, failed_category_entry e)) c = id c := by
      intro c _
      cases hb : behave c <;> simp [hb]
    rw [List.map_congr_left h, List.map_id]
  · intro category msg herr hcat
    exact run_scan_lookup_aux behave scan_category_names category msg hcat herr

/-- Witness for C6: with every category raising `"boom"`, the key list is
the scheduled eight and `tls_security` maps to the fallback failed entry. -/
theorem orchestrator_one_entry_per_category_witness :
    (run_comprehensive_scan (fun _ => .error "boom")).map Prod.fst =
      scan_category_names ∧
    (run_comprehensive_scan (fun _ => .error "boom")).lookup "tls_security" =
      some (failed_category_entry "boom") :=
  ⟨(orchestrator_one_entry_per_category (fun _ => .error "boom")).1,
   (orchestrator_one_entry_per_category (fun _ => .error "boom")).2.2.2
     "tls_security" "boom" rfl (by decide)⟩

/-! ### Claim C7 -/

/-- Claim C7: for every outcome of the scan bodies of the TLS and Service
Discovery probes, `scan()` returns a `ProbeResult` (the embedding functions
are total, so no exception ever escapes): every result has status
`"completed"` or `"failed"`, every raised exception yields status
`"failed"`, and an unexpected internal error yields exactly
`handle_network_error` applied to the probe's operation name and the error
detail — a failed result with a network-error note. -/
theorem scan_never_raises (α : Type) (body : TLSBody α) (ebody : ExposureBody α) :
    ((tls_scan body).status = "completed" ∨ (tls_scan body).status = "failed") ∧
    ((internet_exposure_scan ebody).status = "completed" ∨
      (internet_exposure_scan ebody).status = "failed") ∧
    (∀ e, body = .raised e → (tls_scan body).status = "failed") ∧
    (∀ e, ebody = .raised e → (internet_exposure_scan ebody).status = "failed") ∧
    (∀ msg, body = .raised (.unexpected msg) →
      tls_scan body = handle_network_error α "TLS/SSL analysis" msg) ∧
    (∀ msg, ebody = .raised (.unexpected msg) →
      internet_exposure_scan ebody = handle_network_error α "port scanning" msg) := by
  refine ⟨?_, ?_, ?_, ?_, ?_, ?_⟩
  · rcases body with _ | p | e
    · right; rfl
    · left; rfl
    · rcases e with m | m | m <;> (right; rfl)
  · rcases ebody with p | e
    · left; rfl
    · rcases e with m | m | m <;> (right; rfl)
  · rintro e rfl
    rcases e with m | m | m <;> rfl
  · rintro e rfl
    rcases e with m | m | m <;> rfl
  · rintro msg rfl
    rfl
  · rintro msg rfl
    rfl

/-- Witness for C7: a TLS scan body that raises an unexpected
`"connection reset"` error yields the standard failed network-error result,
and likewise for the Service Discovery probe. -/
theorem scan_never_raises_witness :
    (tls_scan (TLSBody.raised (ScanException.unexpected "connection reset") :
        TLSBody Unit)).status = "failed" ∧
    tls_scan (TLSBody.raised (ScanException.unexpected "connection reset") :
        TLSBody Unit) =
      handle_network_error Unit "TLS/SSL analysis" "connection reset" ∧
    internet_exposure_scan (ExposureBody.raised
        (ScanException.unexpected "connection reset") : ExposureBody Unit) =
      handle_network_error Unit "port scanning" "connection reset" :=
  ⟨(scan_never_raises Unit
      (TLSBody.raised (ScanException.unexpected "connection reset"))
      (ExposureBody.raised (ScanException.unexpected "connection reset"))).2.2.1
      (ScanException.unexpected "connection reset") rfl,
   (scan_never_raises Unit
      (TLSBody.raised (ScanException.unexpected "connection reset"))
      (ExposureBody.raised (ScanException.unexpected "connection reset"))).2.2.2.2.1
      "connection reset" rfl,
   (scan_never_raises Unit
      (TLSBody.raised (ScanException.unexpected "connection reset"))
      (ExposureBody.raised (ScanException.unexpected "connection reset"))).2.2.2.2.2
      "connection reset" rfl⟩

/-! ### Claim C8 -/

instance : IsTotal Problem problemLE :=
  ⟨fun a b => by
    unfold problemLE
    rcases lt_trichotomy (severity_rank a.severity) (severity_rank b.severity) with h | h | h
    · exact Or.inl (Or.inl h)
    · rcases le_total a.category b.category with hc | hc
      · exact Or.inl (Or.inr ⟨h, hc⟩)
      · exact Or.inr (Or.inr ⟨h.symm, hc⟩)
    · exact Or.inr (Or.inl h)⟩

instance : IsTrans Problem problemLE :=
  ⟨fun a b c hab hbc => by
    unfold problemLE at hab hbc ⊢
    rcases hab with h1 | ⟨h1, h1c⟩ <;> rcases hbc with h2 | ⟨h2, h2c⟩
    · exact Or.inl (h1.trans h2)
    · exact Or.inl (h2 ▸ h1)
    · exact Or.inl (h1 ▸ h2)
    · exact Or.inr ⟨h1.trans h2, le_trans h1c h2c⟩⟩

/-- Claim C8: the prioritized problem list is sorted by the key
(severity rank in the order critical, high, medium, low, then category
name): every pair of consecutive elements is related by `problemLE`; the
output is a permutation of the input (deterministically computed — the
embedding is a pure function); and re-sorting an already-sorted list leaves
it unchanged (idempotence). -/
theorem prioritize_problems_sorted (problems : List Problem) :
    List.Sorted problemLE (prioritize_problems problems) ∧
    (prioritize_problems problems).Perm problems ∧
    prioritize_problems (prioritize_problems problems) = prioritize_problems problems :=
  ⟨List.sorted_insertionSort problemLE problems,
   List.perm_insertionSort problemLE problems,
   List.Sorted.insertionSort_eq (List.sorted_insertionSort problemLE problems)⟩

/-! ### Claim C9 -/

/-- Claim C9: in the socket-fallback path, (1) every record in `open_ports`
comes from a TCP connect that completed successfully (`connect_ex`
returned 0); (2) any other outcome — non-zero error code (refusal,
timeout, unreachable) or an exception — marks the port closed (`None`),
never open; (3) for each of the probe's own port lists (quick, full or
custom), no port is attempted more than once per invocation. -/
theorem socket_scan_sound :
    (∀ (conn : ℕ → ConnectOutcome) (ports : List ℕ) (r : OpenPortRecord),
      r ∈ perform_socket_scan conn ports → conn r.port = .code 0) ∧
    (∀ (conn : ℕ → ConnectOutcome) (p : ℕ),
      conn p ≠ .code 0 → scan_port conn p = none) ∧
    (∀ (scan_type : String) (p : ℕ),
      socket_scan_attempts (get_scan_ports scan_type) p ≤ 1) := by
  refine ⟨?_, ?_, ?_⟩
  · intro conn ports r hr
    unfold perform_socket_scan at hr
    simp only [List.mem_filterMap, List.mem_map, id] at hr
    obtain ⟨o, ⟨p, hp, ho⟩, hor⟩ := hr
    subst ho
    unfold scan_port at hor
    cases hconn : conn p with
    | code n =>
      rw [hconn] at hor
      dsimp only at hor
      split_ifs at hor with hn
      subst hn
      obtain rfl := Option.some.inj hor
      exact hconn
    | raised m =>
      rw [hconn] at hor
      cases hor
  · intro conn p hne
    unfold scan_port
    cases hconn : conn p with
    | code n =>
      dsimp only
      rw [if_neg]
      intro hn
      subst hn
      exact hne hconn
    | raised m => rfl
  · intro scan_type p
    unfold socket_scan_attempts get_scan_ports
    split_ifs
    · exact List.nodup_iff_count_le_one.mp (by decide) p
    · exact List.nodup_iff_count_le_one.mp (List.nodup_range' 1 1000) p
    · exact List.nodup_iff_count_le_one.mp (by decide) p

/-- Witness for C9: with a connection oracle accepting everything, port 80
appears in the scan of `[80]` and its connect completed, while a refused
port (error code 111) is reported closed. -/
theorem socket_scan_sound_witness :
    ({ port := 80, protocol := "tcp", service := "http", state := "open",
       method := "socket_connect" } : OpenPortRecord) ∈
      perform_socket_scan (fun _ => ConnectOutcome.code 0) [80] ∧
    (fun _ => ConnectOutcome.code 0) 80 = ConnectOutcome.code 0 ∧
    scan_port (fun _ => ConnectOutcome.code 111) 80 = none :=
  ⟨by decide,
   socket_scan_sound.1 (fun _ => ConnectOutcome.code 0) [80]
     { port := 80, protocol := "tcp", service := "http", state := "open",
       method := "socket_connect" } (by decide),
   socket_scan_sound.2.1 (fun _ => ConnectOutcome.code 111) 80 (by decide)⟩
